import Mathlib

/-
Verification of the logo MCP server core: the name→domain resolution engine,
the company search, the image content validator and the cascading logo fetch
pipeline, shallowly embedded from the TypeScript sources
(src/index.ts resolver part, src/services/image-validator.ts,
src/services/logo-fetcher.ts).

Strings are modelled over their character lists; byte buffers are lists of
naturals.  Text-level JavaScript primitives (toLowerCase, trim, \s) are
embedded at their ASCII fragment, which is exact for every input these
theorems evaluate.  Network effects (fetch, timeouts, JSON responses) are
passed in as explicit oracle values, so each function is total and the
control flow around the oracles is the code's.
-/

namespace LogoServer

set_option maxRecDepth 8192

/-- ASCII fragment of the JavaScript whitespace class used by `trim()` and
the regular-expression class `\s` in the resolver's `normalize`. -/
def isJsWs (c : Char) : Bool :=
  c = ' ' || c = '\t' || c = '\n' || c = '\r' || c = '\x0b' || c = '\x0c'

/-- ASCII lowercasing, embedding `String.prototype.toLowerCase`. -/
def lowerChar (c : Char) : Char := c.toLower

/-- Lowercase a whole string (`s.toLowerCase()`). -/
def lowerStr (s : String) : String := String.mk (s.toList.map lowerChar)

/-- Both-ends whitespace strip (`s.trim()`). -/
def trimL (l : List Char) : List Char :=
  ((l.dropWhile isJsWs).reverse.dropWhile isJsWs).reverse

/-- The resolver's `replace(/[._\-]/g, "")`. -/
def dropPunct (l : List Char) : List Char :=
  l.filter (fun c => !(c = '.' || c = '_' || c = '-'))

/-- The resolver's `replace(/\s+/g, " ")`: every maximal whitespace run
becomes a single space. -/
def collapseWs : List Char → List Char
  | [] => []
  | [c] => [if isJsWs c then ' ' else c]
  | c :: d :: rest =>
    if isJsWs c && isJsWs d then collapseWs (d :: rest)
    else (if isJsWs c then ' ' else c) :: collapseWs (d :: rest)

/-- `normalize` from the domain resolver: lowercase, trim, strip `.` `_` `-`,
collapse internal whitespace to single spaces (in the source's order). -/
def normalize (s : String) : String :=
  String.mk (collapseWs (dropPunct (trimL (s.toList.map lowerChar))))

/-- The tier-5 `replace(/\s/g, "")`. -/
def stripWs (s : String) : String :=
  String.mk (s.toList.filter (fun c => !isJsWs c))

/-- Does the second list start with the first (`String.prototype.startsWith`)? -/
def startsWithL : List Char → List Char → Bool
  | [], _ => true
  | _ :: _, [] => false
  | p :: ps, c :: cs => p = c && startsWithL ps cs

/-- Contiguous-substring test, `hay.includes(needle)` with the needle first. -/
def strIncludes (needle : List Char) : List Char → Bool
  | [] => needle.isEmpty
  | c :: t => startsWithL needle (c :: t) || strIncludes needle t

/-- One inner step of the Wagner–Fischer row update. -/
def levRowAux (x : Char) : List Char → List Nat → Nat → Nat → List Nat
  | y :: ys, pj :: prest, diag, left =>
    let cur := min (min (pj + 1) (left + 1)) (diag + if x = y then 0 else 1)
    cur :: levRowAux x ys prest pj cur
  | _, _, _, _ => []

/-- Next dynamic-programming row for source character `x`. -/
def levRow (x : Char) (ys : List Char) : List Nat → List Nat
  | p0 :: prest => (p0 + 1) :: levRowAux x ys prest p0 (p0 + 1)
  | [] => []

/-- Levenshtein edit distance by the standard Wagner–Fischer dynamic program;
this embeds `distance` from the fastest-levenshtein package the resolver
imports. -/
def levenshtein (s t : String) : Nat :=
  (s.toList.foldl (fun row x => levRow x t.toList row)
    (List.range (t.toList.length + 1))).getLastD 0

/-- One record of the curated database (`CompanyEntry` in src/index.ts). -/
structure CompanyEntry where
  domain : String
  aliases : List String
  category : String
deriving DecidableEq, Repr


/-- Slice 1 of the curated database literal (split only to keep
elaboration fast; concatenated below in source order). -/
def dbSlice1 : List (String × CompanyEntry) := [
  ("shopify", ⟨"shopify.com", ["shopify plus"], "E-Commerce"⟩),
  ("woocommerce", ⟨"woocommerce.com", ["woo commerce", "woo"], "E-Commerce"⟩),
  ("bigcommerce", ⟨"bigcommerce.com", ["big commerce"], "E-Commerce"⟩),
  ("magento", ⟨"magento.com", ["adobe commerce"], "E-Commerce"⟩),
  ("squarespace", ⟨"squarespace.com", ["square space"], "E-Commerce"⟩),
  ("wix", ⟨"wix.com", [], "E-Commerce"⟩),
  ("etsy", ⟨"etsy.com", [], "E-Commerce"⟩),
  ("amazon", ⟨"amazon.com", ["aws marketplace"], "E-Commerce"⟩),
  ("ebay", ⟨"ebay.com", [], "E-Commerce"⟩),
  ("prestashop", ⟨"prestashop.com", ["presta shop"], "E-Commerce"⟩),
  ("volusion", ⟨"volusion.com", [], "E-Commerce"⟩),
  ("flipkart", ⟨"flipkart.com", [], "E-Commerce"⟩),
  ("hubspot", ⟨"hubspot.com", ["hub spot", "hs"], "CRM"⟩),
  ("salesforce", ⟨"salesforce.com", ["sfdc", "sf"], "CRM"⟩),
  ("mailchimp", ⟨"mailchimp.com", ["mail chimp"], "Marketing"⟩),
  ("marketo", ⟨"marketo.com", [], "Marketing"⟩),
  ("activecampaign", ⟨"activecampaign.com", ["active campaign"], "Marketing"⟩),
  ("constantcontact", ⟨"constantcontact.com", ["constant contact"], "Marketing"⟩),
  ("sendinblue", ⟨"brevo.com", ["brevo"], "Marketing"⟩),
  ("klaviyo", ⟨"klaviyo.com", [], "Marketing"⟩),
  ("intercom", ⟨"intercom.com", [], "CRM"⟩),
  ("zendesk", ⟨"zendesk.com", [], "CRM"⟩),
  ("freshdesk", ⟨"freshdesk.com", [], "CRM"⟩),
  ("pipedrive", ⟨"pipedrive.com", ["pipe drive"], "CRM"⟩),
  ("zoho", ⟨"zoho.com", [], "CRM"⟩),
  ("drift", ⟨"drift.com", [], "CRM"⟩),
  ("freshsales", ⟨"freshworks.com", ["fresh sales", "freshworks"], "CRM"⟩),
  ("aws", ⟨"aws.amazon.com", ["amazon web services"], "Cloud"⟩),
  ("gcp", ⟨"cloud.google.com", ["google cloud", "google cloud platform"], "Cloud"⟩),
  ("azure", ⟨"azure.microsoft.com", ["microsoft azure"], "Cloud"⟩)
]

/-- Slice 2 of the curated database literal (split only to keep
elaboration fast; concatenated below in source order). -/
def dbSlice2 : List (String × CompanyEntry) := [
  ("digitalocean", ⟨"digitalocean.com", ["digital ocean", "do"], "Cloud"⟩),
  ("heroku", ⟨"heroku.com", [], "Cloud"⟩),
  ("vercel", ⟨"vercel.com", ["zeit"], "Cloud"⟩),
  ("netlify", ⟨"netlify.com", [], "Cloud"⟩),
  ("cloudflare", ⟨"cloudflare.com", ["cloud flare", "cf"], "Cloud"⟩),
  ("linode", ⟨"linode.com", ["akamai"], "Cloud"⟩),
  ("render", ⟨"render.com", [], "Cloud"⟩),
  ("railway", ⟨"railway.app", [], "Cloud"⟩),
  ("supabase", ⟨"supabase.com", [], "Cloud"⟩),
  ("firebase", ⟨"firebase.google.com", [], "Cloud"⟩),
  ("planetscale", ⟨"planetscale.com", ["planet scale"], "Cloud"⟩),
  ("neon", ⟨"neon.tech", [], "Cloud"⟩),
  ("github", ⟨"github.com", ["gh"], "DevTools"⟩),
  ("gitlab", ⟨"gitlab.com", ["gl"], "DevTools"⟩),
  ("bitbucket", ⟨"bitbucket.org", ["bit bucket", "bb"], "DevTools"⟩),
  ("jira", ⟨"atlassian.com", [], "DevTools"⟩),
  ("atlassian", ⟨"atlassian.com", [], "DevTools"⟩),
  ("confluence", ⟨"atlassian.com/software/confluence", [], "DevTools"⟩),
  ("docker", ⟨"docker.com", [], "DevTools"⟩),
  ("kubernetes", ⟨"kubernetes.io", ["k8s"], "DevTools"⟩),
  ("jenkins", ⟨"jenkins.io", [], "DevTools"⟩),
  ("circleci", ⟨"circleci.com", ["circle ci"], "DevTools"⟩),
  ("travisci", ⟨"travis-ci.com", ["travis ci", "travis"], "DevTools"⟩),
  ("sentry", ⟨"sentry.io", [], "DevTools"⟩),
  ("datadog", ⟨"datadoghq.com", ["data dog"], "DevTools"⟩),
  ("newrelic", ⟨"newrelic.com", ["new relic"], "DevTools"⟩),
  ("postman", ⟨"postman.com", [], "DevTools"⟩),
  ("insomnia", ⟨"insomnia.rest", [], "DevTools"⟩),
  ("terraform", ⟨"terraform.io", ["tf"], "DevTools"⟩),
  ("hashicorp", ⟨"hashicorp.com", [], "DevTools"⟩)
]

/-- Slice 3 of the curated database literal (split only to keep
elaboration fast; concatenated below in source order). -/
def dbSlice3 : List (String × CompanyEntry) := [
  ("grafana", ⟨"grafana.com", [], "DevTools"⟩),
  ("prometheus", ⟨"prometheus.io", [], "DevTools"⟩),
  ("elasticsearch", ⟨"elastic.co", ["elastic", "elk"], "DevTools"⟩),
  ("kibana", ⟨"elastic.co/kibana", [], "DevTools"⟩),
  ("redis", ⟨"redis.io", [], "DevTools"⟩),
  ("mongodb", ⟨"mongodb.com", ["mongo"], "DevTools"⟩),
  ("postgresql", ⟨"postgresql.org", ["postgres", "pg"], "DevTools"⟩),
  ("mysql", ⟨"mysql.com", [], "DevTools"⟩),
  ("sqlite", ⟨"sqlite.org", [], "DevTools"⟩),
  ("npm", ⟨"npmjs.com", [], "DevTools"⟩),
  ("yarn", ⟨"yarnpkg.com", [], "DevTools"⟩),
  ("webpack", ⟨"webpack.js.org", [], "DevTools"⟩),
  ("vite", ⟨"vitejs.dev", ["vitejs"], "DevTools"⟩),
  ("eslint", ⟨"eslint.org", [], "DevTools"⟩),
  ("prettier", ⟨"prettier.io", [], "DevTools"⟩),
  ("stripe", ⟨"stripe.com", [], "Payments"⟩),
  ("paypal", ⟨"paypal.com", ["pay pal"], "Payments"⟩),
  ("square", ⟨"squareup.com", ["squareup"], "Payments"⟩),
  ("braintree", ⟨"braintreepayments.com", ["brain tree"], "Payments"⟩),
  ("adyen", ⟨"adyen.com", [], "Payments"⟩),
  ("klarna", ⟨"klarna.com", [], "Payments"⟩),
  ("afterpay", ⟨"afterpay.com", ["after pay"], "Payments"⟩),
  ("razorpay", ⟨"razorpay.com", ["razor pay"], "Payments"⟩),
  ("plaid", ⟨"plaid.com", [], "Payments"⟩),
  ("wise", ⟨"wise.com", ["transferwise"], "Payments"⟩),
  ("slack", ⟨"slack.com", [], "Communication"⟩),
  ("discord", ⟨"discord.com", [], "Communication"⟩),
  ("teams", ⟨"microsoft.com/en-us/microsoft-teams", ["microsoft teams", "ms teams"], "Communication"⟩),
  ("zoom", ⟨"zoom.us", [], "Communication"⟩),
  ("telegram", ⟨"telegram.org", ["tg"], "Communication"⟩)
]

/-- Slice 4 of the curated database literal (split only to keep
elaboration fast; concatenated below in source order). -/
def dbSlice4 : List (String × CompanyEntry) := [
  ("whatsapp", ⟨"whatsapp.com", ["what's app", "wa"], "Communication"⟩),
  ("twilio", ⟨"twilio.com", [], "Communication"⟩),
  ("sendgrid", ⟨"sendgrid.com", ["send grid"], "Communication"⟩),
  ("mailgun", ⟨"mailgun.com", ["mail gun"], "Communication"⟩),
  ("notion", ⟨"notion.so", [], "Collaboration"⟩),
  ("airtable", ⟨"airtable.com", ["air table"], "Collaboration"⟩),
  ("asana", ⟨"asana.com", [], "Collaboration"⟩),
  ("trello", ⟨"trello.com", [], "Collaboration"⟩),
  ("monday", ⟨"monday.com", ["monday.com"], "Collaboration"⟩),
  ("clickup", ⟨"clickup.com", ["click up"], "Collaboration"⟩),
  ("basecamp", ⟨"basecamp.com", ["base camp"], "Collaboration"⟩),
  ("linear", ⟨"linear.app", [], "Collaboration"⟩),
  ("miro", ⟨"miro.com", [], "Collaboration"⟩),
  ("figma", ⟨"figma.com", [], "Collaboration"⟩),
  ("canva", ⟨"canva.com", [], "Collaboration"⟩),
  ("openai", ⟨"openai.com", ["open ai", "chatgpt", "gpt"], "AI"⟩),
  ("anthropic", ⟨"anthropic.com", ["claude"], "AI"⟩),
  ("google", ⟨"google.com", [], "AI"⟩),
  ("deepmind", ⟨"deepmind.google", ["deep mind"], "AI"⟩),
  ("huggingface", ⟨"huggingface.co", ["hugging face", "hf"], "AI"⟩),
  ("cohere", ⟨"cohere.com", [], "AI"⟩),
  ("replicate", ⟨"replicate.com", [], "AI"⟩),
  ("stability", ⟨"stability.ai", ["stable diffusion", "stability ai"], "AI"⟩),
  ("midjourney", ⟨"midjourney.com", ["mid journey", "mj"], "AI"⟩),
  ("cursor", ⟨"cursor.com", ["cursor ai"], "AI"⟩),
  ("perplexity", ⟨"perplexity.ai", [], "AI"⟩),
  ("mistral", ⟨"mistral.ai", ["mistral ai"], "AI"⟩),
  ("elevenlabs", ⟨"elevenlabs.io", ["eleven labs", "11labs"], "AI"⟩),
  ("googleanalytics", ⟨"analytics.google.com", ["google analytics", "ga"], "Analytics"⟩),
  ("mixpanel", ⟨"mixpanel.com", ["mix panel"], "Analytics"⟩)
]

/-- Slice 5 of the curated database literal (split only to keep
elaboration fast; concatenated below in source order). -/
def dbSlice5 : List (String × CompanyEntry) := [
  ("amplitude", ⟨"amplitude.com", [], "Analytics"⟩),
  ("segment", ⟨"segment.com", [], "Analytics"⟩),
  ("hotjar", ⟨"hotjar.com", ["hot jar"], "Analytics"⟩),
  ("looker", ⟨"looker.com", [], "Analytics"⟩),
  ("tableau", ⟨"tableau.com", [], "Analytics"⟩),
  ("powerbi", ⟨"powerbi.microsoft.com", ["power bi", "microsoft power bi"], "Analytics"⟩),
  ("snowflake", ⟨"snowflake.com", [], "Analytics"⟩),
  ("databricks", ⟨"databricks.com", ["data bricks"], "Analytics"⟩),
  ("dbt", ⟨"getdbt.com", ["data build tool"], "Analytics"⟩),
  ("facebook", ⟨"facebook.com", ["fb", "meta"], "Social"⟩),
  ("instagram", ⟨"instagram.com", ["ig", "insta"], "Social"⟩),
  ("twitter", ⟨"x.com", ["x", "x.com"], "Social"⟩),
  ("linkedin", ⟨"linkedin.com", ["linked in", "li"], "Social"⟩),
  ("pinterest", ⟨"pinterest.com", [], "Social"⟩),
  ("tiktok", ⟨"tiktok.com", ["tik tok"], "Social"⟩),
  ("reddit", ⟨"reddit.com", [], "Social"⟩),
  ("youtube", ⟨"youtube.com", ["yt"], "Social"⟩),
  ("snapchat", ⟨"snapchat.com", ["snap"], "Social"⟩),
  ("threads", ⟨"threads.net", [], "Social"⟩),
  ("auth0", ⟨"auth0.com", [], "Auth"⟩),
  ("okta", ⟨"okta.com", [], "Auth"⟩),
  ("clerk", ⟨"clerk.com", [], "Auth"⟩),
  ("stytch", ⟨"stytch.com", [], "Auth"⟩),
  ("onelogin", ⟨"onelogin.com", ["one login"], "Auth"⟩),
  ("duo", ⟨"duo.com", ["duo security"], "Auth"⟩),
  ("crowdstrike", ⟨"crowdstrike.com", ["crowd strike"], "Security"⟩),
  ("snyk", ⟨"snyk.io", [], "Security"⟩),
  ("vault", ⟨"vaultproject.io", ["hashicorp vault"], "Security"⟩),
  ("onepassword", ⟨"1password.com", ["1password"], "Security"⟩),
  ("lastpass", ⟨"lastpass.com", ["last pass"], "Security"⟩)
]

/-- Slice 6 of the curated database literal (split only to keep
elaboration fast; concatenated below in source order). -/
def dbSlice6 : List (String × CompanyEntry) := [
  ("sketch", ⟨"sketch.com", [], "Design"⟩),
  ("invision", ⟨"invisionapp.com", ["in vision"], "Design"⟩),
  ("zeplin", ⟨"zeplin.io", [], "Design"⟩),
  ("framer", ⟨"framer.com", [], "Design"⟩),
  ("storybook", ⟨"storybook.js.org", [], "Design"⟩),
  ("chromatic", ⟨"chromatic.com", [], "Design"⟩),
  ("adobe", ⟨"adobe.com", [], "Design"⟩),
  ("adobe xd", ⟨"adobe.com", ["xd"], "Design"⟩),
  ("react", ⟨"react.dev", ["reactjs"], "Framework"⟩),
  ("nextjs", ⟨"nextjs.org", ["next.js", "next js", "next"], "Framework"⟩),
  ("vue", ⟨"vuejs.org", ["vuejs", "vue.js"], "Framework"⟩),
  ("nuxt", ⟨"nuxt.com", ["nuxtjs", "nuxt.js"], "Framework"⟩),
  ("angular", ⟨"angular.io", ["angularjs"], "Framework"⟩),
  ("svelte", ⟨"svelte.dev", ["sveltejs"], "Framework"⟩),
  ("remix", ⟨"remix.run", ["remix.run"], "Framework"⟩),
  ("astro", ⟨"astro.build", ["astro.build"], "Framework"⟩),
  ("tailwindcss", ⟨"tailwindcss.com", ["tailwind", "tailwind css"], "Framework"⟩),
  ("bootstrap", ⟨"getbootstrap.com", [], "Framework"⟩),
  ("nodejs", ⟨"nodejs.org", ["node.js", "node js", "node"], "Framework"⟩),
  ("deno", ⟨"deno.com", [], "Framework"⟩),
  ("bun", ⟨"bun.sh", [], "Framework"⟩),
  ("python", ⟨"python.org", [], "Language"⟩),
  ("rust", ⟨"rust-lang.org", ["rustlang"], "Language"⟩),
  ("go", ⟨"go.dev", ["golang"], "Language"⟩),
  ("swift", ⟨"swift.org", [], "Language"⟩),
  ("kotlin", ⟨"kotlinlang.org", ["kotlin lang"], "Language"⟩),
  ("typescript", ⟨"typescriptlang.org", ["ts"], "Language"⟩),
  ("flutter", ⟨"flutter.dev", [], "Framework"⟩),
  ("django", ⟨"djangoproject.com", ["django project"], "Framework"⟩),
  ("flask", ⟨"flask.palletsprojects.com", [], "Framework"⟩)
]

/-- Slice 7 of the curated database literal (split only to keep
elaboration fast; concatenated below in source order). -/
def dbSlice7 : List (String × CompanyEntry) := [
  ("fastapi", ⟨"fastapi.tiangolo.com", ["fast api"], "Framework"⟩),
  ("rails", ⟨"rubyonrails.org", ["ruby on rails", "ror"], "Framework"⟩),
  ("laravel", ⟨"laravel.com", [], "Framework"⟩),
  ("spring", ⟨"spring.io", ["spring boot"], "Framework"⟩),
  ("express", ⟨"expressjs.com", ["express.js", "expressjs"], "Framework"⟩),
  ("s3", ⟨"aws.amazon.com/s3", ["amazon s3", "aws s3"], "Storage"⟩),
  ("cloudinary", ⟨"cloudinary.com", [], "Storage"⟩),
  ("imgix", ⟨"imgix.com", [], "Storage"⟩),
  ("uploadcare", ⟨"uploadcare.com", ["upload care"], "Storage"⟩),
  ("mux", ⟨"mux.com", [], "Storage"⟩),
  ("bunnycdn", ⟨"bunny.net", ["bunny cdn", "bunny.net"], "CDN"⟩),
  ("fastly", ⟨"fastly.com", [], "CDN"⟩),
  ("wordpress", ⟨"wordpress.org", ["wp"], "CMS"⟩),
  ("contentful", ⟨"contentful.com", [], "CMS"⟩),
  ("strapi", ⟨"strapi.io", [], "CMS"⟩),
  ("sanity", ⟨"sanity.io", [], "CMS"⟩),
  ("ghost", ⟨"ghost.org", [], "CMS"⟩),
  ("prismic", ⟨"prismic.io", [], "CMS"⟩),
  ("webflow", ⟨"webflow.com", ["web flow"], "CMS"⟩),
  ("drupal", ⟨"drupal.org", [], "CMS"⟩),
  ("directus", ⟨"directus.io", [], "CMS"⟩),
  ("sap", ⟨"sap.com", [], "ERP"⟩),
  ("oracle", ⟨"oracle.com", [], "ERP"⟩),
  ("netsuite", ⟨"netsuite.com", ["net suite"], "ERP"⟩),
  ("quickbooks", ⟨"quickbooks.intuit.com", ["quick books", "intuit"], "ERP"⟩),
  ("xero", ⟨"xero.com", [], "ERP"⟩),
  ("freshbooks", ⟨"freshbooks.com", ["fresh books"], "ERP"⟩),
  ("spotify", ⟨"spotify.com", [], "Entertainment"⟩),
  ("netflix", ⟨"netflix.com", [], "Entertainment"⟩),
  ("apple", ⟨"apple.com", [], "Tech"⟩)
]

/-- Slice 8 of the curated database literal (split only to keep
elaboration fast; concatenated below in source order). -/
def dbSlice8 : List (String × CompanyEntry) := [
  ("microsoft", ⟨"microsoft.com", ["ms"], "Tech"⟩),
  ("ibm", ⟨"ibm.com", [], "Tech"⟩),
  ("intel", ⟨"intel.com", [], "Tech"⟩),
  ("nvidia", ⟨"nvidia.com", [], "Tech"⟩),
  ("tesla", ⟨"tesla.com", [], "Tech"⟩),
  ("uber", ⟨"uber.com", [], "Tech"⟩),
  ("airbnb", ⟨"airbnb.com", [], "Tech"⟩),
  ("dropbox", ⟨"dropbox.com", [], "Tech"⟩),
  ("box", ⟨"box.com", [], "Tech"⟩),
  ("twitch", ⟨"twitch.tv", [], "Entertainment"⟩),
  ("epic", ⟨"epicgames.com", ["epic games"], "Entertainment"⟩),
  ("unity", ⟨"unity.com", ["unity3d"], "DevTools"⟩),
  ("unreal", ⟨"unrealengine.com", ["unreal engine", "ue"], "DevTools"⟩),
  ("godot", ⟨"godotengine.org", ["godot engine"], "DevTools"⟩)
]

/-- The curated company database, transcribed entry-for-entry in the
insertion order of the object literal COMPANY_DATABASE in src/index.ts
(JavaScript enumerates these non-numeric keys in insertion order, which is
the iteration order of every Object.entries loop below). -/
def COMPANY_DATABASE : List (String × CompanyEntry) :=
  dbSlice1 ++ dbSlice2 ++ dbSlice3 ++ dbSlice4 ++ dbSlice5 ++ dbSlice6 ++ dbSlice7 ++ dbSlice8


/-- Confidence tier of a resolution result. -/
inductive Confidence where
  | exact
  | alias
  | fuzzy
  | liveSearch
  | inferred
deriving DecidableEq, Repr

/-- Result record of `resolveDomain` (`ResolvedDomain` in src/index.ts);
`liveSearch` renders the source's "live-search" tag. -/
structure ResolvedDomain where
  domain : String
  company : String
  category : String
  confidence : Confidence
  matchedName : String
deriving DecidableEq, Repr

/-- Tier-1 lookup `COMPANY_DATABASE[normalized]` over the literal's own keys. -/
def lookupDB (n : String) : Option CompanyEntry :=
  (COMPANY_DATABASE.find? (fun p => p.1 = n)).map (fun p => p.2)

/-- Tier 2: the first entry (insertion order) with an alias whose
normalization equals `n`, together with that first alias. -/
def aliasMatch (n : String) : Option (String × CompanyEntry × String) :=
  COMPANY_DATABASE.findSome? (fun p =>
    (p.2.aliases.find? (fun a => normalize a = n)).map (fun a => (p.1, p.2, a)))

/-- A fuzzy-tier candidate: the record the source's `bestMatch` variable holds
(`via` is the raw key or alias the distance was measured against). -/
structure Candidate where
  key : String
  entry : CompanyEntry
  dist : Nat
  via : String
deriving DecidableEq, Repr

/-- Candidates one entry contributes to the tier-3 scan, in the source's
order: the key itself first, then the aliases; key distance is taken against
the raw key, alias distance against the normalized alias. -/
def entryCandidates (n : String) (p : String × CompanyEntry) : List Candidate :=
  ⟨p.1, p.2, levenshtein n p.1, p.1⟩ ::
    p.2.aliases.map (fun a => ⟨p.1, p.2, levenshtein n (normalize a), a⟩)

/-- All tier-3 candidates in the scan order of the nested loops. -/
def fuzzyCandidates (n : String) : List Candidate :=
  (COMPANY_DATABASE.map (entryCandidates n)).flatten

/-- One update of the source's `bestMatch` variable: adopt the candidate when
its distance is at most 2 and strictly below the current best. -/
def fuzzyStep (best : Option Candidate) (c : Candidate) : Option Candidate :=
  if c.dist ≤ 2 && (match best with | none => true | some b => decide (c.dist < b.dist)) then
    some c
  else best

/-- Tier-3 scan: fold the `bestMatch` update over all candidates. -/
def bestFuzzy (l : List Candidate) : Option Candidate := l.foldl fuzzyStep none

/-- The resolution engine `resolveDomain`.  The `live` argument is the oracle
for the tier-4 network call `searchWebForDomain input`: `some d` models a
search that produced the cleaned display domain `d`, `none` models every
failure mode (non-ok response, timeout, thrown error, or no qualifying
result), all of which the source collapses to `null` before tier 5. -/
def resolveDomain (live : Option String) (input : String) : ResolvedDomain :=
  let n := normalize input
  match lookupDB n with
  | some e => ⟨e.domain, n, e.category, .exact, n⟩
  | none =>
    match aliasMatch n with
    | some (k, e, a) => ⟨e.domain, k, e.category, .alias, a⟩
    | none =>
      match bestFuzzy (fuzzyCandidates n) with
      | some c => ⟨c.entry.domain, c.key, c.entry.category, .fuzzy, c.via⟩
      | none =>
        match live with
        | some d => ⟨d, input, "Unknown (Live Search)", .liveSearch, input⟩
        | none => ⟨stripWs n ++ ".com", stripWs n, "Unknown", .inferred, input⟩

/-- A database row paired with the score the search loop assigned it. -/
structure Scored where
  name : String
  score : Nat
  entry : CompanyEntry
deriving DecidableEq, Repr

/-- The search loop's category filter
`category && entry.category.toLowerCase() !== category.toLowerCase()`
(an empty category string is falsy in JavaScript, hence never filters). -/
def categoryExcludes (category : Option String) (e : CompanyEntry) : Bool :=
  match category with
  | none => false
  | some c => !(c = "") && !(lowerStr e.category = lowerStr c)

/-- Running minimum `score = Math.min(score, v)`, with `none` playing the
initial `Infinity`. -/
def minScore (s : Option Nat) (v : Nat) : Option Nat :=
  match s with
  | none => some v
  | some u => some (min u v)

/-- Score of one entry under the search loop's rules, applied in the
source's order with a running minimum: key substring (0 when equal, else 1),
alias substring (2), category substring (3), fuzzy key distance at most
3 (4 + distance). -/
def entryScore (n : String) (key : String) (e : CompanyEntry) : Option Nat :=
  let s1 :=
    if strIncludes n.toList key.toList then
      minScore none (if key = n then 0 else 1)
    else none
  let s2 := e.aliases.foldl
    (fun s a => if strIncludes n.toList (normalize a).toList then minScore s 2 else s) s1
  let s3 := if strIncludes n.toList (lowerStr e.category).toList then minScore s2 3 else s2
  let d := levenshtein n key
  if d ≤ 3 then minScore s3 (4 + d) else s3

/-- Rows the search loop pushes, in database iteration order. -/
def scoredRows (query : String) (category : Option String) : List Scored :=
  COMPANY_DATABASE.filterMap (fun p =>
    if categoryExcludes category p.2 then none
    else (entryScore (normalize query) p.1 p.2).map (fun s => ⟨p.1, s, p.2⟩))

/-- Stable ascending insertion by score: a new row lands after every row of
equal or smaller score already placed. -/
def insertScored (x : Scored) : List Scored → List Scored
  | [] => [x]
  | y :: ys => if y.score ≤ x.score then y :: insertScored x ys else x :: y :: ys

/-- Stable insertion sort by ascending score, the behavior of the source's
`results.sort((a, b) => a.score - b.score)` (ECMAScript sort is stable). -/
def sortScored (l : List Scored) : List Scored :=
  l.foldl (fun acc x => insertScored x acc) []

/-- `searchCompanies(query, { category, limit })`: filter, score, stable sort
ascending by score, truncate to `limit`, drop the score field. -/
def searchCompanies (query : String) (category : Option String) (limit : Nat) :
    List (String × CompanyEntry) :=
  ((sortScored (scoredRows query category)).take limit).map (fun r => (r.name, r.entry))

/-- An entry of the magic-byte table (`ImageSignature`). -/
structure ImageSignature where
  bytes : List Nat
  offset : Nat
  format : String
  extension : String
  mimeType : String
deriving DecidableEq, Repr

/-- The magic-byte table `IMAGE_SIGNATURES`, in its source order. -/
def IMAGE_SIGNATURES : List ImageSignature := [
  ⟨[0x89, 0x50, 0x4e, 0x47], 0, "PNG", "png", "image/png"⟩,
  ⟨[0xff, 0xd8, 0xff], 0, "JPEG", "jpg", "image/jpeg"⟩,
  ⟨[0x47, 0x49, 0x46, 0x38, 0x37, 0x61], 0, "GIF", "gif", "image/gif"⟩,
  ⟨[0x47, 0x49, 0x46, 0x38, 0x39, 0x61], 0, "GIF", "gif", "image/gif"⟩,
  ⟨[0x52, 0x49, 0x46, 0x46], 0, "WEBP", "webp", "image/webp"⟩,
  ⟨[0x00, 0x00, 0x01, 0x00], 0, "ICO", "ico", "image/x-icon"⟩,
  ⟨[0x42, 0x4d], 0, "BMP", "bmp", "image/bmp"⟩,
  ⟨[0x49, 0x49, 0x2a, 0x00], 0, "TIFF", "tiff", "image/tiff"⟩,
  ⟨[0x4d, 0x4d, 0x00, 0x2a], 0, "TIFF", "tiff", "image/tiff"⟩,
  ⟨[0x66, 0x74, 0x79, 0x70, 0x61, 0x76, 0x69, 0x66], 4, "AVIF", "avif", "image/avif"⟩]

/-- Derived image metadata (`ImageInfo`). -/
structure ImageInfo where
  format : String
  extension : String
  mimeType : String
  sizeBytes : Nat
  isValid : Bool
  isSvg : Bool
deriving DecidableEq, Repr

/-- Result of `validateImage` (`ValidationResult`); absent optional fields
are `none`. -/
structure ValidationResult where
  valid : Bool
  info : Option ImageInfo
  reason : Option String
deriving DecidableEq, Repr

/-- The signature-comparison loop: do the expected bytes all occur at the
head of the (already offset) buffer tail? -/
def matchBytes : List Nat → List Nat → Bool
  | [], _ => true
  | _ :: _, [] => false
  | b :: bs, x :: xs => b = x && matchBytes bs xs

/-- Does one signature match the buffer?  A buffer shorter than
`offset + bytes.length` never matches, exactly as the source's `continue`. -/
def sigMatches (buf : List Nat) (sig : ImageSignature) : Bool :=
  matchBytes sig.bytes (buf.drop sig.offset)

/-- `detectFormat`: first signature of the table that matches. -/
def detectFormat (buf : List Nat) : Option ImageSignature :=
  IMAGE_SIGNATURES.find? (sigMatches buf)

/-- Text view of the first `n` buffer bytes, embedding
`buffer.subarray(0, Math.min(length, n)).toString("utf-8")` at its ASCII
fragment: bytes below 0x80 decode to themselves under UTF-8, which covers
every buffer these theorems evaluate. -/
def textPrefix (n : Nat) (buf : List Nat) : List Char :=
  (buf.take n).map Char.ofNat

/-- `isHtmlContent`: HTML sniff over the trimmed, lowercased first 512
bytes. -/
def isHtmlContent (buf : List Nat) : Bool :=
  let text := (trimL (textPrefix 512 buf)).map lowerChar
  startsWithL "<!doctype html".toList text ||
  startsWithL "<html".toList text ||
  startsWithL "<!doctype".toList text ||
  (strIncludes "<head>".toList text && strIncludes "<body".toList text)

/-- `isSvgContent`: SVG sniff over the trimmed first 1024 bytes. -/
def isSvgContent (buf : List Nat) : Bool :=
  let text := trimL (textPrefix 1024 buf)
  (startsWithL "<?xml".toList text && strIncludes "<svg".toList text) ||
  startsWithL "<svg".toList text ||
  strIncludes "xmlns=\"http://www.w3.org/2000/svg\"".toList text

/-- `validateImage`, rule for rule in the source's order: empty, minimum
size, HTML page, SVG, magic bytes, unknown. -/
def validateImage (buf : List Nat) : ValidationResult :=
  if buf.length = 0 then
    ⟨false, none, some "Empty buffer — no data received"⟩
  else if buf.length < 100 then
    ⟨false, none,
      some ("Buffer too small (" ++ toString buf.length ++ " bytes) — likely a placeholder")⟩
  else if isHtmlContent buf then
    ⟨false, none, some "Content is HTML, not an image — likely an error page"⟩
  else if isSvgContent buf then
    ⟨true, some ⟨"SVG", "svg", "image/svg+xml", buf.length, true, true⟩, none⟩
  else
    match detectFormat buf with
    | some sig => ⟨true, some ⟨sig.format, sig.extension, sig.mimeType, buf.length, true, false⟩, none⟩
    | none => ⟨false, none, some "Unknown format — could not identify image type from file header"⟩

/-- Logical logo size (`LogoSize`). -/
inductive LogoSize where
  | small
  | medium
  | large
deriving DecidableEq, Repr

/-- `SIZE_MAP`. -/
def SIZE_MAP : LogoSize → Nat
  | .small => 64
  | .medium => 128
  | .large => 256

/-- A validated logo (`LogoResult`). -/
structure LogoResult where
  buffer : List Nat
  imageInfo : ImageInfo
  source : String
  sourceUrl : String
deriving DecidableEq, Repr

/-- One log row of the pipeline (`FetchAttempt`); an absent error field is
`none`. -/
structure FetchAttempt where
  source : String
  url : String
  success : Bool
  error : Option String
  durationMs : Nat
deriving DecidableEq, Repr

/-- Result of the pipeline (`LogoFetchResult`). -/
structure LogoFetchResult where
  success : Bool
  logo : Option LogoResult
  attempts : List FetchAttempt
  error : Option String
deriving DecidableEq, Repr

/-- Oracle for every network effect of one `fetchLogo` call.  `fetchBuffer
url timeoutMs` models the HTTP helper of the same name: `ok` carries the
response bytes of a 2xx answer, `error` the thrown message (non-2xx status,
network failure or timeout).  `ddgImage` models the DuckDuckGo instant-answer
request plus JSON parse: `ok` carries the optional `Image` field, `error` a
non-ok status or thrown failure.  `durationMs i` models the wall-clock
duration `Date.now() - start` of the i-th source attempt. -/
structure NetOracle where
  fetchBuffer : String → Nat → Except String (List Nat)
  ddgImage : String → Except String (Option String)
  durationMs : Nat → Nat

/-- Stand-in for the non-null assertion `validation.info!`: the validator
returns `info` whenever `valid` holds, so the default is dead code. -/
def assertInfo (i : Option ImageInfo) : ImageInfo :=
  i.getD ⟨"", "", "", 0, false, false⟩

/-- Source 1, `fetchFromClearbit`. -/
def fetchFromClearbit (o : NetOracle) (domain : String) (size : LogoSize) :
    Except String LogoResult :=
  let sizeParam := SIZE_MAP size * 2
  let url := "https://logo.clearbit.com/" ++ domain ++ "?size=" ++ toString sizeParam ++ "&format=png"
  match o.fetchBuffer url 10000 with
  | .error e => .error e
  | .ok buffer =>
    let validation := validateImage buffer
    if validation.valid then
      .ok ⟨buffer, assertInfo validation.info, "Clearbit Logo API", url⟩
    else
      .error (validation.reason.getD "Invalid image from Clearbit")

/-- Source 2, `fetchFromGoogle`, with the small-payload placeholder
rejection that follows a successful validation. -/
def fetchFromGoogle (o : NetOracle) (domain : String) (size : LogoSize) :
    Except String LogoResult :=
  let sz := min (SIZE_MAP size * 2) 256
  let url := "https://www.google.com/s2/favicons?domain=" ++ domain ++ "&sz=" ++ toString sz
  match o.fetchBuffer url 10000 with
  | .error e => .error e
  | .ok buffer =>
    let validation := validateImage buffer
    if !validation.valid then
      .error (validation.reason.getD "Invalid image from Google")
    else if buffer.length < 500 && !(size = LogoSize.small) then
      .error "Google returned a generic placeholder icon"
    else
      .ok ⟨buffer, assertInfo validation.info, "Google Favicon Service", url⟩

/-- ASCII fragment of `encodeURIComponent`: unreserved characters pass,
every other ASCII character is percent-encoded. -/
def isUnreservedUri (c : Char) : Bool :=
  ('A' ≤ c && c ≤ 'Z') || ('a' ≤ c && c ≤ 'z') || ('0' ≤ c && c ≤ '9') ||
  c = '-' || c = '_' || c = '.' || c = '!' || c = '~' || c = '*' || c = '\'' || c = '(' || c = ')'

/-- Upper-case hexadecimal digit. -/
def hexDigitChar (n : Nat) : Char :=
  if n < 10 then Char.ofNat (48 + n) else Char.ofNat (55 + n)

/-- Percent-encoding of one character. -/
def encodeUriChar (c : Char) : List Char :=
  if isUnreservedUri c then [c]
  else ['%', hexDigitChar (c.toNat / 16), hexDigitChar (c.toNat % 16)]

/-- `encodeURIComponent` over ASCII strings. -/
def encodeUriComponent (s : String) : String :=
  String.mk ((s.toList.map encodeUriChar).flatten)

/-- Source 3, `fetchFromDuckDuckGo`: the instant-answer query, the falsy
check on the `Image` field, relative-URL resolution, then fetch and
validate. -/
def fetchFromDuckDuckGo (o : NetOracle) (companyName : String) (_size : LogoSize) :
    Except String LogoResult :=
  let query := encodeUriComponent (companyName ++ " company")
  let apiUrl := "https://api.duckduckgo.com/?q=" ++ query ++ "&format=json&no_html=1"
  match o.ddgImage apiUrl with
  | .error e => .error e
  | .ok none => .error "No logo image found in DuckDuckGo response"
  | .ok (some imageUrl) =>
    if imageUrl = "" then .error "No logo image found in DuckDuckGo response"
    else
      let fullUrl := if startsWithL "http".toList imageUrl.toList then imageUrl
        else "https://duckduckgo.com" ++ imageUrl
      match o.fetchBuffer fullUrl 10000 with
      | .error e => .error e
      | .ok buffer =>
        let validation := validateImage buffer
        if validation.valid then
          .ok ⟨buffer, assertInfo validation.info, "DuckDuckGo Instant Answer", fullUrl⟩
        else
          .error (validation.reason.getD "Invalid image from DuckDuckGo")

/-- The conventional icon paths of source 4, best first. -/
def faviconPaths : List String :=
  ["/apple-touch-icon.png", "/apple-touch-icon-precomposed.png", "/favicon-32x32.png", "/favicon.ico"]

/-- The path loop of `fetchDirectFavicon`, carrying `lastError`. -/
def directFaviconGo (o : NetOracle) (domain : String) :
    List String → Option String → Except String LogoResult
  | [], lastError => .error (lastError.getD "No valid favicon found at any common path")
  | p :: ps, _lastError =>
    let url := "https://" ++ domain ++ p
    match o.fetchBuffer url 8000 with
    | .error e => directFaviconGo o domain ps (some e)
    | .ok buffer =>
      let validation := validateImage buffer
      if validation.valid then
        .ok ⟨buffer, assertInfo validation.info, "Direct Favicon", url⟩
      else
        directFaviconGo o domain ps (some (validation.reason.getD "Invalid image"))

/-- Source 4, `fetchDirectFavicon`. -/
def fetchDirectFavicon (o : NetOracle) (domain : String) (_size : LogoSize) :
    Except String LogoResult :=
  directFaviconGo o domain faviconPaths none

/-- One row of the `SOURCES` table. -/
structure SourceConfig where
  name : String
  fn : NetOracle → String → LogoSize → Except String LogoResult
  usesCompanyName : Bool

/-- The ordered source table `SOURCES`. -/
def SOURCES : List SourceConfig :=
  [⟨"Clearbit", fetchFromClearbit, false⟩,
   ⟨"Google Favicon", fetchFromGoogle, false⟩,
   ⟨"DuckDuckGo", fetchFromDuckDuckGo, true⟩,
   ⟨"Direct Favicon", fetchDirectFavicon, false⟩]

/-- The pipeline loop of `fetchLogo`: try each source in order, append one
attempt row per source, stop at the first success. -/
def fetchLogoGo (o : NetOracle) (domain company : String) (size : LogoSize) (total : Nat) :
    List SourceConfig → Nat → List FetchAttempt → LogoFetchResult
  | [], _, attempts =>
    ⟨false, none, attempts,
      some ("Failed to download logo from all " ++ toString total ++ " sources")⟩
  | s :: rest, idx, attempts =>
    let input := if s.usesCompanyName then company else domain
    match s.fn o input size with
    | .ok logo =>
      ⟨true, some logo, attempts ++ [⟨s.name, logo.sourceUrl, true, none, o.durationMs idx⟩], none⟩
    | .error msg =>
      fetchLogoGo o domain company size total rest (idx + 1)
        (attempts ++ [⟨s.name, "[" ++ s.name ++ "] " ++ input, false, some msg, o.durationMs idx⟩])

/-- `fetchLogo(domain, company, size)`: a total function of the oracle — the
embedded pipeline has no failure path that escapes as an exception. -/
def fetchLogo (o : NetOracle) (domain company : String) (size : LogoSize) : LogoFetchResult :=
  fetchLogoGo o domain company size SOURCES.length SOURCES 0 []

/-- Reduced form of one `bestMatch` update when no candidate is held yet. -/
theorem fuzzyStep_none (c : Candidate) :
    fuzzyStep none c = if c.dist ≤ 2 then some c else none := by
  by_cases h : c.dist ≤ 2 <;> simp [fuzzyStep, h]

/-- Reduced form of one `bestMatch` update against a held candidate. -/
theorem fuzzyStep_some (b c : Candidate) :
    fuzzyStep (some b) c = if c.dist ≤ 2 ∧ c.dist < b.dist then some c else some b := by
  by_cases h1 : c.dist ≤ 2 <;> by_cases h2 : c.dist < b.dist <;> simp [fuzzyStep, h1, h2]

/-- Claim-side selector of the fuzzy tier: the first-encountered candidate
of minimal distance among those with distance at most 2. -/
def firstMinFuzzy : List Candidate → Option Candidate
  | [] => none
  | c :: cs =>
    match firstMinFuzzy cs with
    | none => if c.dist ≤ 2 then some c else none
    | some b => if c.dist ≤ 2 ∧ c.dist ≤ b.dist then some c else some b

/-- Generalized accumulator form of the tier-3 fold: against a held
candidate, the scan returns the list's first minimum when it strictly
improves on the held distance, else the held candidate. -/
theorem foldl_fuzzyStep_some (l : List Candidate) (b : Candidate) :
    l.foldl fuzzyStep (some b) =
      match firstMinFuzzy l with
      | none => some b
      | some c => if c.dist < b.dist then some c else some b := by
  induction l generalizing b with
  | nil => rfl
  | cons c cs ih =>
    rw [List.foldl_cons, fuzzyStep_some]
    simp only [firstMinFuzzy]
    cases hm : firstMinFuzzy cs with
    | none =>
      by_cases h1 : c.dist ≤ 2 ∧ c.dist < b.dist
      · rw [if_pos h1, ih c, hm]
        simp [h1.1, h1.2]
      · rw [if_neg h1, ih b, hm]
        by_cases h2 : c.dist ≤ 2
        · have hb : ¬ c.dist < b.dist := fun h => h1 ⟨h2, h⟩
          simp [h2, hb]
        · simp [h2]
    | some d =>
      by_cases h1 : c.dist ≤ 2 ∧ c.dist < b.dist
      · rw [if_pos h1, ih c, hm]
        by_cases h3 : c.dist ≤ d.dist
        · have hnd : ¬ d.dist < c.dist := by omega
          simp [h1.1, h1.2, h3, hnd]
        · have hd : d.dist < c.dist := by omega
          have hdb : d.dist < b.dist := by omega
          simp [h3, hd, hdb, h1.1]
      · rw [if_neg h1, ih b, hm]
        by_cases h2 : c.dist ≤ 2
        · have hb : ¬ c.dist < b.dist := fun h => h1 ⟨h2, h⟩
          by_cases h3 : c.dist ≤ d.dist
          · have hdb : ¬ d.dist < b.dist := by omega
            simp [h2, h3, hb, hdb]
          · simp [h2, h3]
        · simp [h2]

/-- The tier-3 scan computes exactly the first-encountered minimum-distance
candidate, the tie-break rule the claim describes. -/
theorem bestFuzzy_eq_firstMin (l : List Candidate) : bestFuzzy l = firstMinFuzzy l := by
  induction l with
  | nil => rfl
  | cons c cs ih =>
    show List.foldl fuzzyStep (fuzzyStep none c) cs = _
    rw [fuzzyStep_none]
    simp only [firstMinFuzzy]
    by_cases h1 : c.dist ≤ 2
    · rw [if_pos h1, foldl_fuzzyStep_some cs c]
      cases hm : firstMinFuzzy cs with
      | none => simp [h1]
      | some d =>
        by_cases h3 : c.dist ≤ d.dist
        · have hnd : ¬ d.dist < c.dist := by omega
          simp [h1, h3, hnd]
        · have hd : d.dist < c.dist := by omega
          simp [h1, h3, hd]
    · rw [if_neg h1]
      show bestFuzzy cs = _
      rw [ih]
      cases hm : firstMinFuzzy cs with
      | none => simp [h1]
      | some d => simp [h1]

/-- A list whose selector is empty holds no candidate of distance at most 2. -/
theorem firstMinFuzzy_none (l : List Candidate) (h : firstMinFuzzy l = none) :
    ∀ d ∈ l, ¬ d.dist ≤ 2 := by
  induction l with
  | nil => simp
  | cons x xs ih =>
    simp only [firstMinFuzzy] at h
    cases hm : firstMinFuzzy xs with
    | none =>
      simp only [hm] at h
      by_cases hx : x.dist ≤ 2
      · rw [if_pos hx] at h; cases h
      · rw [if_neg hx] at h
        intro d hd
        rcases List.mem_cons.mp hd with rfl | hdm
        · exact hx
        · exact ih hm d hdm
    | some b =>
      simp only [hm] at h
      by_cases hx : x.dist ≤ 2 ∧ x.dist ≤ b.dist
      · rw [if_pos hx] at h; cases h
      · rw [if_neg hx] at h; cases h

/-- The selector's result belongs to the list, has distance at most 2, and
its distance is minimal among all candidates of distance at most 2. -/
theorem firstMinFuzzy_min (l : List Candidate) (c : Candidate)
    (h : firstMinFuzzy l = some c) :
    c ∈ l ∧ c.dist ≤ 2 ∧ ∀ d ∈ l, d.dist ≤ 2 → c.dist ≤ d.dist := by
  induction l generalizing c with
  | nil => cases h
  | cons x xs ih =>
    simp only [firstMinFuzzy] at h
    cases hm : firstMinFuzzy xs with
    | none =>
      simp only [hm] at h
      by_cases hx : x.dist ≤ 2
      · rw [if_pos hx] at h
        cases h
        refine ⟨List.mem_cons_self _ _, hx, ?_⟩
        intro d hd hd2
        rcases List.mem_cons.mp hd with rfl | hdm
        · omega
        · exact absurd hd2 (firstMinFuzzy_none xs hm d hdm)
      · rw [if_neg hx] at h; cases h
    | some b =>
      simp only [hm] at h
      obtain ⟨hbm, hb2, hbmin⟩ := ih b hm
      by_cases hx : x.dist ≤ 2 ∧ x.dist ≤ b.dist
      · rw [if_pos hx] at h
        cases h
        refine ⟨List.mem_cons_self _ _, hx.1, ?_⟩
        intro d hd hd2
        rcases List.mem_cons.mp hd with rfl | hdm
        · omega
        · exact le_trans hx.2 (hbmin d hdm hd2)
      · rw [if_neg hx] at h
        cases h
        refine ⟨List.mem_cons_of_mem _ hbm, hb2, ?_⟩
        intro d hd hd2
        rcases List.mem_cons.mp hd with rfl | hdm
        · omega
        · exact hbmin d hdm hd2

/-- Characterization of a successful tier-2 lookup: the returned key owns
the matching alias and the pair is a database row. -/
theorem aliasMatch_spec (n : String) (k : String) (e : CompanyEntry) (a : String)
    (h : aliasMatch n = some (k, e, a)) :
    (k, e) ∈ COMPANY_DATABASE ∧ a ∈ e.aliases ∧ normalize a = n := by
  obtain ⟨p, hp, hf⟩ := List.exists_of_findSome?_eq_some h
  cases hfa : p.2.aliases.find? (fun a => normalize a = n) with
  | none => rw [hfa] at hf; cases hf
  | some a' =>
    rw [hfa] at hf
    simp only [Option.map_some'] at hf
    have ha := List.find?_some hfa
    have ham := List.mem_of_find?_eq_some hfa
    simp only [decide_eq_true_eq] at ha
    obtain ⟨hk, he, haa⟩ : p.1 = k ∧ p.2 = e ∧ a' = a := by
      simpa only [Option.some.injEq, Prod.mk.injEq] using hf
    subst hk; subst he; subst haa
    exact ⟨by simpa using hp, ham, ha⟩

/-- C1: an input whose normalized form equals a curated database key resolves
with confidence `exact`, that key as company and matched name, and the key's
domain and category, for every live-search outcome; the key/entry pair is a
database row. -/
theorem resolveDomain_exact_key (input : String) (live : Option String) (e : CompanyEntry)
    (h : lookupDB (normalize input) = some e) :
    resolveDomain live input =
      ⟨e.domain, normalize input, e.category, .exact, normalize input⟩ ∧
    (normalize input, e) ∈ COMPANY_DATABASE := by
  constructor
  · simp only [resolveDomain]
    rw [h]
  · unfold lookupDB at h
    cases hf : COMPANY_DATABASE.find? (fun p => p.1 = normalize input) with
    | none => rw [hf] at h; cases h
    | some p =>
      rw [hf] at h
      simp only [Option.map_some'] at h
      have hmem := List.mem_of_find?_eq_some hf
      have hp := List.find?_some hf
      simp only [decide_eq_true_eq] at hp
      have he : p.2 = e := Option.some.inj h
      rw [← hp, ← he]
      simpa using hmem

/-- Witness for C1 at the input "Shopify" (exercising normalization). -/
theorem resolveDomain_exact_key_witness :
    lookupDB (normalize "Shopify") = some ⟨"shopify.com", ["shopify plus"], "E-Commerce"⟩ ∧
    resolveDomain none "Shopify" =
      ⟨"shopify.com", "shopify", "E-Commerce", .exact, "shopify"⟩ :=
  ⟨by decide,
    (resolveDomain_exact_key "Shopify" none ⟨"shopify.com", ["shopify plus"], "E-Commerce"⟩
      (by decide)).1⟩

/-- C5: an input whose normalized form equals no key but equals an entry's
normalized alias resolves with confidence `alias`, the owning key (the first
matching entry in iteration order, which is what `aliasMatch` selects) as
company, and that entry's domain, for every live-search outcome. -/
theorem resolveDomain_alias_owner (input : String) (live : Option String)
    (k : String) (e : CompanyEntry) (a : String)
    (h1 : lookupDB (normalize input) = none)
    (h2 : aliasMatch (normalize input) = some (k, e, a)) :
    resolveDomain live input = ⟨e.domain, k, e.category, .alias, a⟩ ∧
    (k, e) ∈ COMPANY_DATABASE ∧ a ∈ e.aliases ∧ normalize a = normalize input := by
  refine ⟨?_, aliasMatch_spec _ _ _ _ h2⟩
  simp only [resolveDomain]
  rw [h1, h2]

/-- Witness for C5 at the input "GH", resolving to github via alias "gh". -/
theorem resolveDomain_alias_owner_witness :
    resolveDomain none "GH" =
      ⟨"github.com", "github", "DevTools", .alias, "gh"⟩ :=
  (resolveDomain_alias_owner "GH" none "github" ⟨"github.com", ["gh"], "DevTools"⟩ "gh"
    (by decide) (by decide)).1

/-- C2 as stated is refuted: the normalized input "gh" equals no database
key and lies at distance 0 ≤ 2 from github's alias "gh", yet the resolver
answers with confidence `alias`, not `fuzzy` — exact alias equality is
consumed by tier 2 before the fuzzy tier runs. -/
theorem resolveDomain_fuzzy_claim_cex :
    lookupDB (normalize "gh") = none ∧
    ("github", (⟨"github.com", ["gh"], "DevTools"⟩ : CompanyEntry)) ∈ COMPANY_DATABASE ∧
    levenshtein (normalize "gh") (normalize "gh") = 0 ∧
    (resolveDomain none "gh").confidence = .alias ∧
    Confidence.alias ≠ Confidence.fuzzy :=
  ⟨by decide, by decide, by decide, rfl, by decide⟩

/-- C2 (amended): when the normalized input equals no key and no normalized
alias but some scan candidate (a key or a normalized alias) lies within
Levenshtein distance 2, the resolver answers `fuzzy` with the
first-encountered minimum-distance candidate of the scan (each entry's key
before its aliases, entries in insertion order); that candidate's entry
supplies domain, company and category, and its distance is minimal among
all candidates of distance at most 2. -/
theorem resolveDomain_fuzzy_first_min (input : String) (live : Option String) (c : Candidate)
    (h1 : lookupDB (normalize input) = none)
    (h2 : aliasMatch (normalize input) = none)
    (hc : firstMinFuzzy (fuzzyCandidates (normalize input)) = some c) :
    resolveDomain live input = ⟨c.entry.domain, c.key, c.entry.category, .fuzzy, c.via⟩ ∧
    c ∈ fuzzyCandidates (normalize input) ∧ c.dist ≤ 2 ∧
    ∀ d ∈ fuzzyCandidates (normalize input), d.dist ≤ 2 → c.dist ≤ d.dist := by
  refine ⟨?_, firstMinFuzzy_min _ _ hc⟩
  simp only [resolveDomain]
  rw [h1, h2, bestFuzzy_eq_firstMin, hc]

/-- Witness for C2 (amended) at the typo input "shoppify", selecting the
key "shopify" at distance 1. -/
theorem resolveDomain_fuzzy_first_min_witness :
    resolveDomain none "shoppify" =
      ⟨"shopify.com", "shopify", "E-Commerce", .fuzzy, "shopify"⟩ :=
  (resolveDomain_fuzzy_first_min "shoppify" none
    ⟨"shopify", ⟨"shopify.com", ["shopify plus"], "E-Commerce"⟩, 1, "shopify"⟩
    (by decide) (by decide) (by decide)).1

/-- C6 as stated is refuted: the empty input never reaches tier 5 — the
fuzzy tier already matches it (twitter's alias "x" at distance 1), so no
degenerate ".com" inferred result is produced. -/
theorem resolveDomain_empty_cex :
    (resolveDomain none "").confidence = .fuzzy ∧
    (resolveDomain none "").domain = "x.com" ∧
    Confidence.fuzzy ≠ Confidence.inferred :=
  ⟨rfl, rfl, by decide⟩

/-- C6 (amended): the empty input still completes deterministically and
without error or live search, but at tier 3, not tier 5: for every
live-search outcome the fuzzy scan selects twitter's alias "x" (the
first-encountered minimum, distance 1), giving domain "x.com" with
confidence `fuzzy`. -/
theorem resolveDomain_empty_fuzzy (live : Option String) :
    resolveDomain live "" =
      ⟨"x.com", "twitter", "Social", .fuzzy, "x"⟩ := rfl

/-- C7 as stated is refuted: at tier 5 the matched name is the raw input,
not the sanitized input the claim announces. -/
theorem resolveDomain_inferred_cex :
    (resolveDomain none "qqqq qqqq").confidence = .inferred ∧
    (resolveDomain none "qqqq qqqq").company = "qqqqqqqq" ∧
    (resolveDomain none "qqqq qqqq").matchedName = "qqqq qqqq" ∧
    stripWs (normalize "qqqq qqqq") = "qqqqqqqq" ∧
    ("qqqq qqqq" : String) ≠ "qqqqqqqq" :=
  ⟨rfl, rfl, rfl, rfl, by decide⟩

/-- C7 (amended): an input reaching tier 5 (no key, no alias, no fuzzy
candidate within distance 2, live search without a result) resolves to the
whitespace-stripped normalized input with ".com" appended, that sanitized
input as company — and the raw input, not the sanitized one, as matched
name. -/
theorem resolveDomain_inferred_tier5 (input : String)
    (h1 : lookupDB (normalize input) = none)
    (h2 : aliasMatch (normalize input) = none)
    (h3 : firstMinFuzzy (fuzzyCandidates (normalize input)) = none) :
    resolveDomain none input =
      ⟨stripWs (normalize input) ++ ".com", stripWs (normalize input), "Unknown", .inferred,
        input⟩ := by
  simp only [resolveDomain]
  rw [h1, h2, bestFuzzy_eq_firstMin, h3]

/-- Witness for C7 (amended) at the input "qqqq qqqq". -/
theorem resolveDomain_inferred_tier5_witness :
    resolveDomain none "qqqq qqqq" =
      ⟨"qqqqqqqq.com", "qqqqqqqq", "Unknown", .inferred, "qqqq qqqq"⟩ :=
  resolveDomain_inferred_tier5 "qqqq qqqq" (by decide) (by decide) (by decide)

/-- C8: every buffer shorter than 100 bytes is rejected whatever its
content — a zero-length buffer with the empty-buffer reason, a 1 to 99 byte
buffer with the length-interpolated placeholder reason — before any HTML,
SVG or magic-byte rule can apply: the whole result is determined by the
length alone. -/
theorem validateImage_small (buf : List Nat) (h : buf.length < 100) :
    (validateImage buf).valid = false ∧
    (validateImage buf).info = none ∧
    (buf.length = 0 →
      (validateImage buf).reason = some "Empty buffer — no data received") ∧
    (buf.length ≠ 0 →
      (validateImage buf).reason =
        some ("Buffer too small (" ++ toString buf.length ++ " bytes) — likely a placeholder")) := by
  by_cases h0 : buf.length = 0
  · simp [validateImage, h0]
  · simp [validateImage, h0, h]

/-- Witness for C8: a 50-byte buffer that even starts with the PNG magic is
still rejected as a too-small placeholder. -/
theorem validateImage_small_witness :
    ([0x89, 0x50, 0x4e, 0x47] ++ List.replicate 46 0).length < 100 ∧
    (validateImage ([0x89, 0x50, 0x4e, 0x47] ++ List.replicate 46 0)).valid = false ∧
    (validateImage ([0x89, 0x50, 0x4e, 0x47] ++ List.replicate 46 0)).reason =
      some "Buffer too small (50 bytes) — likely a placeholder" :=
  ⟨by decide, (validateImage_small _ (by decide)).1,
    (validateImage_small _ (by decide)).2.2.2 (by decide)⟩

/-- C10: a buffer of at least 100 bytes whose first four bytes read "RIFF"
and which trips neither the HTML nor the SVG text sniff is always accepted
as a WEBP image — no rule inspects bytes 8–11 for a "WEBP" tag, so any
other RIFF container (a WAV file, say) is accepted the same way. -/
theorem validateImage_riff_webp (buf : List Nat) (h100 : 100 ≤ buf.length)
    (hriff : buf.take 4 = [0x52, 0x49, 0x46, 0x46])
    (hhtml : isHtmlContent buf = false) (hsvg : isSvgContent buf = false) :
    validateImage buf =
      ⟨true, some ⟨"WEBP", "webp", "image/webp", buf.length, true, false⟩, none⟩ := by
  have h0 : ¬ buf.length = 0 := by omega
  have h1 : ¬ buf.length < 100 := by omega
  have hdf : detectFormat buf =
      some ⟨[0x52, 0x49, 0x46, 0x46], 0, "WEBP", "webp", "image/webp"⟩ := by
    have hsplit : buf = 0x52 :: 0x49 :: 0x46 :: 0x46 :: buf.drop 4 := by
      conv_lhs => rw [← List.take_append_drop 4 buf, hriff]
      rfl
    rw [hsplit]
    rfl
  simp [validateImage, h0, h1, hhtml, hsvg, hdf]

/-- A 100-byte WAV-style RIFF container: bytes 8–11 read "WAVE". -/
def wavBuffer : List Nat :=
  [0x52, 0x49, 0x46, 0x46, 0x24, 0x08, 0x00, 0x00, 0x57, 0x41, 0x56, 0x45] ++
    List.replicate 88 0

/-- Witness for C10: the WAV container is accepted, declared WEBP. -/
theorem validateImage_riff_webp_witness :
    (wavBuffer.drop 8).take 4 = [0x57, 0x41, 0x56, 0x45] ∧
    validateImage wavBuffer =
      ⟨true, some ⟨"WEBP", "webp", "image/webp", 100, true, false⟩, none⟩ :=
  ⟨by decide,
    validateImage_riff_webp wavBuffer (by decide) (by decide) (by decide) (by decide)⟩

/-- Every successful answer of the DuckDuckGo source carries its fixed
source label. -/
theorem fetchFromDuckDuckGo_source (o : NetOracle) (c : String) (s : LogoSize)
    (logo : LogoResult) (h : fetchFromDuckDuckGo o c s = .ok logo) :
    logo.source = "DuckDuckGo Instant Answer" := by
  simp only [fetchFromDuckDuckGo] at h
  split at h
  · cases h
  · cases h
  · split at h
    · cases h
    · split at h
      · cases h
      · split at h
        · cases h
          rfl
        · cases h

/-- C3: with the first two sources failing and the third succeeding, the
pipeline records exactly three attempts — the two failures in declared
source order, then the success — never starts the fourth source, and
returns the third source's logo, whose label names the DuckDuckGo
instant-answer source. -/
theorem fetchLogo_third_source (o : NetOracle) (domain company : String) (size : LogoSize)
    (e1 e2 : String) (logo : LogoResult)
    (h1 : fetchFromClearbit o domain size = .error e1)
    (h2 : fetchFromGoogle o domain size = .error e2)
    (h3 : fetchFromDuckDuckGo o company size = .ok logo) :
    fetchLogo o domain company size =
      ⟨true, some logo,
        [⟨"Clearbit", "[Clearbit] " ++ domain, false, some e1, o.durationMs 0⟩,
         ⟨"Google Favicon", "[Google Favicon] " ++ domain, false, some e2, o.durationMs 1⟩,
         ⟨"DuckDuckGo", logo.sourceUrl, true, none, o.durationMs 2⟩], none⟩ ∧
    logo.source = "DuckDuckGo Instant Answer" := by
  refine ⟨?_, fetchFromDuckDuckGo_source o company size logo h3⟩
  simp [fetchLogo, SOURCES, fetchLogoGo, h1, h2, h3]

/-- C4: when every source fails, the embedded pipeline — a total function,
so no exception can escape to the caller — returns success `false`, no
logo, the summary error naming all 4 sources, and one failed attempt row
per source in priority order. -/
theorem fetchLogo_all_fail (o : NetOracle) (domain company : String) (size : LogoSize)
    (e1 e2 e3 e4 : String)
    (h1 : fetchFromClearbit o domain size = .error e1)
    (h2 : fetchFromGoogle o domain size = .error e2)
    (h3 : fetchFromDuckDuckGo o company size = .error e3)
    (h4 : fetchDirectFavicon o domain size = .error e4) :
    fetchLogo o domain company size =
      ⟨false, none,
        [⟨"Clearbit", "[Clearbit] " ++ domain, false, some e1, o.durationMs 0⟩,
         ⟨"Google Favicon", "[Google Favicon] " ++ domain, false, some e2, o.durationMs 1⟩,
         ⟨"DuckDuckGo", "[DuckDuckGo] " ++ company, false, some e3, o.durationMs 2⟩,
         ⟨"Direct Favicon", "[Direct Favicon] " ++ domain, false, some e4, o.durationMs 3⟩],
        some "Failed to download logo from all 4 sources"⟩ ∧
    ∀ a ∈ (fetchLogo o domain company size).attempts, a.success = false := by
  have hmain :
      fetchLogo o domain company size =
        ⟨false, none,
          [⟨"Clearbit", "[Clearbit] " ++ domain, false, some e1, o.durationMs 0⟩,
           ⟨"Google Favicon", "[Google Favicon] " ++ domain, false, some e2, o.durationMs 1⟩,
           ⟨"DuckDuckGo", "[DuckDuckGo] " ++ company, false, some e3, o.durationMs 2⟩,
           ⟨"Direct Favicon", "[Direct Favicon] " ++ domain, false, some e4, o.durationMs 3⟩],
          some "Failed to download logo from all 4 sources"⟩ := by
    simp [fetchLogo, SOURCES, fetchLogoGo, h1, h2, h3, h4]
    rfl
  refine ⟨hmain, ?_⟩
  rw [hmain]
  intro a ha
  simp only [List.mem_cons, List.not_mem_nil, or_false] at ha
  rcases ha with rfl | rfl | rfl | rfl <;> rfl

/-- A 100-byte buffer with the PNG magic, served by the success oracle. -/
def pngBuffer : List Nat := [0x89, 0x50, 0x4e, 0x47] ++ List.replicate 96 0

/-- Oracle for the C3 witness: both image hosts refuse everything except
the one logo URL the DuckDuckGo instant answer names. -/
def ddgOracle : NetOracle :=
  ⟨fun url _ => if url = "https://img.example/logo.png" then .ok pngBuffer
    else .error "HTTP 404: Not Found",
   fun _ => .ok (some "https://img.example/logo.png"),
   fun i => 5 * i⟩

/-- Witness for C3: Clearbit and Google fail, DuckDuckGo succeeds, and the
pipeline stops after exactly three attempts. -/
theorem fetchLogo_third_source_witness :
    fetchLogo ddgOracle "acme.com" "acme" .large =
      ⟨true,
        some ⟨pngBuffer, ⟨"PNG", "png", "image/png", 100, true, false⟩,
          "DuckDuckGo Instant Answer", "https://img.example/logo.png"⟩,
        [⟨"Clearbit", "[Clearbit] acme.com", false, some "HTTP 404: Not Found", 0⟩,
         ⟨"Google Favicon", "[Google Favicon] acme.com", false, some "HTTP 404: Not Found", 5⟩,
         ⟨"DuckDuckGo", "https://img.example/logo.png", true, none, 10⟩], none⟩ :=
  (fetchLogo_third_source ddgOracle "acme.com" "acme" .large
    "HTTP 404: Not Found" "HTTP 404: Not Found"
    ⟨pngBuffer, ⟨"PNG", "png", "image/png", 100, true, false⟩,
      "DuckDuckGo Instant Answer", "https://img.example/logo.png"⟩
    (by rfl) (by rfl) (by rfl)).1

/-- Oracle for the C4 witness: the network answers nothing at all. -/
def failOracle : NetOracle :=
  ⟨fun _ _ => .error "HTTP 404: Not Found", fun _ => .error "DDG API HTTP 500", fun i => i⟩

/-- Witness for C4: all four sources fail and the pipeline reports the
structured four-attempt failure result. -/
theorem fetchLogo_all_fail_witness :
    fetchLogo failOracle "acme.com" "acme" .large =
      ⟨false, none,
        [⟨"Clearbit", "[Clearbit] acme.com", false, some "HTTP 404: Not Found", 0⟩,
         ⟨"Google Favicon", "[Google Favicon] acme.com", false, some "HTTP 404: Not Found", 1⟩,
         ⟨"DuckDuckGo", "[DuckDuckGo] acme", false, some "DDG API HTTP 500", 2⟩,
         ⟨"Direct Favicon", "[Direct Favicon] acme.com", false, some "HTTP 404: Not Found", 3⟩],
        some "Failed to download logo from all 4 sources"⟩ :=
  (fetchLogo_all_fail failOracle "acme.com" "acme" .large
    "HTTP 404: Not Found" "HTTP 404: Not Found" "DDG API HTTP 500" "HTTP 404: Not Found"
    (by rfl) (by rfl) (by rfl) (by rfl)).1

/-- Lists equal to themselves start with themselves. -/
theorem startsWithL_refl (l : List Char) : startsWithL l l = true := by
  induction l with
  | nil => rfl
  | cons c t ih => simp [startsWithL, ih]

/-- Every list contains itself as a substring. -/
theorem strIncludes_refl (l : List Char) : strIncludes l l = true := by
  cases l with
  | nil => rfl
  | cons c t => simp [strIncludes, startsWithL_refl]

/-- The running minimum absorbs a repeated value. -/
theorem minScore_minScore (s : Option Nat) (v : Nat) :
    minScore (minScore s v) v = minScore s v := by
  cases s <;> simp [minScore, Nat.min_assoc, Nat.min_self]

/-- The alias loop of the search as a single conditional: it lowers the
running score to 2 exactly when some alias contains the query. -/
theorem aliasFold_eq (n : String) (aliases : List String) (s : Option Nat) :
    aliases.foldl
        (fun s a => if strIncludes n.toList (normalize a).toList then minScore s 2 else s) s =
      if aliases.any (fun a => strIncludes n.toList (normalize a).toList) then minScore s 2
      else s := by
  induction aliases generalizing s with
  | nil => simp
  | cons a as ih =>
    rw [List.foldl_cons]
    by_cases ha : strIncludes n.toList (normalize a).toList = true
    · rw [if_pos ha, ih (minScore s 2)]
      have hall : ((a :: as).any fun x => strIncludes n.toList (normalize x).toList) = true := by
        rw [List.any_cons, ha, Bool.true_or]
      rw [hall]
      simp only [if_true]
      by_cases has : (as.any fun x => strIncludes n.toList (normalize x).toList) = true
      · rw [if_pos has, minScore_minScore]
      · rw [if_neg has]
    · rw [if_neg ha, ih s]
      have ha2 : strIncludes n.toList (normalize a).toList = false := by
        revert ha; cases strIncludes n.toList (normalize a).toList <;> simp
      rw [List.any_cons, ha2, Bool.false_or]

/-- Claim-side rule scores of one entry: exact key match 0, key contains
the query 1, an alias contains the query 2, the category contains the query
3, fuzzy key distance d at most 3 gives 4 + d. -/
def ruleScores (n : String) (key : String) (e : CompanyEntry) : List Nat :=
  (if key = n then [0] else []) ++
  (if strIncludes n.toList key.toList then [1] else []) ++
  (if e.aliases.any (fun a => strIncludes n.toList (normalize a).toList) then [2] else []) ++
  (if strIncludes n.toList (lowerStr e.category).toList then [3] else []) ++
  (if levenshtein n key ≤ 3 then [4 + levenshtein n key] else [])

/-- Claim-side score of one entry: the best (lowest) matched rule score. -/
def bestRuleScore (n : String) (key : String) (e : CompanyEntry) : Option Nat :=
  (ruleScores n key e).foldl minScore none

/-- Claim-side scored rows: after the category filter, exactly the entries
matching some rule, each with its best rule score, in iteration order. -/
def specRows (query : String) (category : Option String) : List Scored :=
  COMPANY_DATABASE.filterMap (fun p =>
    if categoryExcludes category p.2 then none
    else (bestRuleScore (normalize query) p.1 p.2).map (fun s => ⟨p.1, s, p.2⟩))

/-- Folding the running minimum over a one-element-or-empty conditional
list is a single conditional update. -/
theorem foldl_minScore_if (c : Prop) [Decidable c] (s : Option Nat) (v : Nat) :
    List.foldl minScore s (if c then [v] else []) = if c then minScore s v else s := by
  by_cases h : c <;> simp [h]

/-- The loop's sequential running minimum computes the claim's best rule
score. -/
theorem entryScore_eq_bestRuleScore (n key : String) (e : CompanyEntry) :
    entryScore n key e = bestRuleScore n key e := by
  simp only [entryScore, bestRuleScore, ruleScores]
  rw [aliasFold_eq, List.foldl_append, List.foldl_append, List.foldl_append, List.foldl_append,
    foldl_minScore_if, foldl_minScore_if, foldl_minScore_if, foldl_minScore_if,
    foldl_minScore_if]
  have hAB :
      (if strIncludes n.toList key.toList = true then
        minScore none (if key = n then 0 else 1) else none) =
      (if strIncludes n.toList key.toList = true then
        minScore (if key = n then minScore none 0 else none) 1
      else (if key = n then minScore none 0 else none)) := by
    by_cases b0 : key = n
    · have b1 : strIncludes n.toList key.toList = true := by
        rw [b0]; exact strIncludes_refl _
      rw [if_pos b1, if_pos b1, if_pos b0, if_pos b0]
      simp [minScore]
    · rw [if_neg b0, if_neg b0]
  rw [hAB]

/-- The loop's row list equals the claim-side row list. -/
theorem scoredRows_eq_specRows (query : String) (category : Option String) :
    scoredRows query category = specRows query category := by
  unfold scoredRows specRows
  simp only [entryScore_eq_bestRuleScore]

/-- Membership after a stable insertion. -/
theorem mem_insertScored (x z : Scored) (l : List Scored) :
    z ∈ insertScored x l ↔ z = x ∨ z ∈ l := by
  induction l with
  | nil => simp [insertScored]
  | cons y ys ih =>
    by_cases h : y.score ≤ x.score
    · simp only [insertScored, if_pos h, List.mem_cons, ih]
      tauto
    · simp only [insertScored, if_neg h, List.mem_cons]

/-- Stable insertion preserves ascending sortedness. -/
theorem insertScored_sorted (x : Scored) (l : List Scored)
    (h : List.Pairwise (fun a b => a.score ≤ b.score) l) :
    List.Pairwise (fun a b => a.score ≤ b.score) (insertScored x l) := by
  induction l with
  | nil => simp [insertScored]
  | cons y ys ih =>
    rcases List.pairwise_cons.mp h with ⟨hy, hys⟩
    by_cases hc : y.score ≤ x.score
    · rw [insertScored, if_pos hc]
      refine List.pairwise_cons.mpr ⟨?_, ih hys⟩
      intro z hz
      rcases (mem_insertScored x z ys).mp hz with rfl | hzm
      · exact hc
      · exact hy z hzm
    · rw [insertScored, if_neg hc]
      refine List.pairwise_cons.mpr ⟨?_, h⟩
      intro z hz
      rcases List.mem_cons.mp hz with rfl | hzm
      · omega
      · exact le_trans (by omega) (hy z hzm)

/-- The insertion-sort fold keeps a sorted accumulator sorted. -/
theorem sortScoredAux_sorted (l : List Scored) (acc : List Scored)
    (hacc : List.Pairwise (fun a b => a.score ≤ b.score) acc) :
    List.Pairwise (fun a b => a.score ≤ b.score)
      (l.foldl (fun acc x => insertScored x acc) acc) := by
  induction l generalizing acc with
  | nil => exact hacc
  | cons x xs ih => exact ih _ (insertScored_sorted x acc hacc)

/-- The sort's output is ascending in score. -/
theorem sortScored_sorted (l : List Scored) :
    List.Pairwise (fun a b => a.score ≤ b.score) (sortScored l) :=
  sortScoredAux_sorted l [] (List.Pairwise.nil)

/-- A sorted list whose head is above `s` holds no row of score `s`. -/
theorem filter_eq_nil_of_sorted_head (y : Scored) (ys : List Scored) (s : Nat)
    (hsort : List.Pairwise (fun a b => a.score ≤ b.score) (y :: ys))
    (hy : s < y.score) :
    (y :: ys).filter (fun r => r.score = s) = [] := by
  rw [List.filter_eq_nil_iff]
  intro z hz
  rcases List.mem_cons.mp hz with rfl | hzm
  · simp; omega
  · have := (List.pairwise_cons.mp hsort).1 z hzm
    simp; omega

/-- Inserting into a sorted list puts the new row after every equal score:
per score value, the filter gains the new row at the end. -/
theorem filter_insertScored (x : Scored) (l : List Scored) (s : Nat)
    (hsort : List.Pairwise (fun a b => a.score ≤ b.score) l) :
    (insertScored x l).filter (fun r => r.score = s) =
      if x.score = s then l.filter (fun r => r.score = s) ++ [x]
      else l.filter (fun r => r.score = s) := by
  induction l with
  | nil =>
    by_cases hx : x.score = s <;> simp [insertScored, hx]
  | cons y ys ih =>
    rcases List.pairwise_cons.mp hsort with ⟨hy, hys⟩
    by_cases hc : y.score ≤ x.score
    · rw [insertScored, if_pos hc]
      by_cases hx : x.score = s <;> by_cases hys2 : y.score = s <;>
        simp [List.filter_cons, hx, hys2, ih hys]
    · rw [insertScored, if_neg hc]
      by_cases hx : x.score = s
      · have hnil : (y :: ys).filter (fun r => r.score = s) = [] :=
          filter_eq_nil_of_sorted_head y ys s hsort (by omega)
        simp [List.filter_cons, hx, hnil]
      · simp [List.filter_cons, hx]

/-- The insertion-sort fold preserves, per score value, the concatenation
of the accumulator's rows and the remaining rows in their original order. -/
theorem filter_sortScoredAux (l : List Scored) (acc : List Scored) (s : Nat)
    (hacc : List.Pairwise (fun a b => a.score ≤ b.score) acc) :
    (l.foldl (fun acc x => insertScored x acc) acc).filter (fun r => r.score = s) =
      acc.filter (fun r => r.score = s) ++ l.filter (fun r => r.score = s) := by
  induction l generalizing acc with
  | nil => simp
  | cons x xs ih =>
    rw [List.foldl_cons, ih (insertScored x acc) (insertScored_sorted x acc hacc),
      filter_insertScored x acc s hacc]
    by_cases hx : x.score = s <;> simp [List.filter_cons, hx]

/-- Per score value, the sort is stable: it lists exactly the input's rows
of that score, in their input order. -/
theorem filter_sortScored (l : List Scored) (s : Nat) :
    (sortScored l).filter (fun r => r.score = s) = l.filter (fun r => r.score = s) := by
  have := filter_sortScoredAux l [] s List.Pairwise.nil
  simpa [sortScored] using this

/-- C9: the search keeps, after the optional case-insensitive
category-equality filter, exactly the entries matching some rule, each at
its best (lowest) rule score (`specRows`, in database iteration order);
it emits them ascending by score with ties in original iteration order —
witnessed by a sorted list that, at every score value, filters to exactly
the spec rows of that score in their original order — truncated to the
first `limit` rows, hence at most `limit` results. -/
theorem searchCompanies_spec (query : String) (category : Option String) (limit : Nat) :
    ∃ ranked : List Scored,
      searchCompanies query category limit =
        (ranked.take limit).map (fun r => (r.name, r.entry)) ∧
      List.Pairwise (fun a b => a.score ≤ b.score) ranked ∧
      (∀ s : Nat, ranked.filter (fun r => r.score = s) =
        (specRows query category).filter (fun r => r.score = s)) ∧
      (searchCompanies query category limit).length ≤ limit := by
  refine ⟨sortScored (scoredRows query category), rfl, sortScored_sorted _, ?_, ?_⟩
  · intro s
    rw [filter_sortScored, scoredRows_eq_specRows]
  · unfold searchCompanies
    rw [List.length_map, List.length_take]
    exact min_le_left _ _

end LogoServer
